import Mathlib

/-!
Shallow embedding of `src/service_coordinator/service_coordinator_client.py`
(class `ServiceCoordinatorClient`): the gRPC Stage Client of the DAI service
coordinator, with its four operations `inform_previous_service_info`,
`inform_current_service_info`, `start` and `stop`.

The RPC substrate (the generated stub) is modelled as an explicit oracle: a
function from the invocation index and the request message to an outcome,
which is either a decoded response or a raised `grpc.RpcError`.  Each method
is embedded as a function of the client object, the Python-level arguments and
the substrate, returning the observable effect of one call: the Python result
or exception, the client object afterwards, and the substrate afterwards
(whose invocation counter records how many RPCs were made).
-/

namespace SCClient

/-- Transport-level failure: a `grpc.RpcError` raised by the RPC substrate,
identified by its diagnostic text. -/
structure GrpcError where
  details : String
deriving DecidableEq, Repr

/-- Outcome of one invocation of the RPC substrate: either a decoded response
message or a raised `grpc.RpcError`. -/
inductive RpcOutcome (ρ : Type) where
  | ok (response : ρ)
  | rpcError (e : GrpcError)
deriving DecidableEq, Repr

/-- Message text CPython uses for the `TypeError` it raises when a `raise`
statement is given a value that does not derive from `BaseException`. -/
def typeErrorText : String := "exceptions must derive from BaseException"

/-- A Python exception escaping a client method, as observed by the caller.
`exception msg` models `raise Exception(msg)`.  `typeErrorFromRaiseStr msg ctx`
models the `TypeError` CPython raises when the operand of a `raise` statement
is a plain `str` (not a `BaseException`); the `grpc.RpcError` being handled in
the surrounding `except` block stays attached as the implicit exception
context `ctx`, and no `__cause__` is set (the `from e` clause is never
processed because the type check fails first). -/
inductive PyError where
  | exception (message : String)
  | typeErrorFromRaiseStr (message : String) (context : Option GrpcError)
deriving DecidableEq, Repr

/-- One `{key, value}` pair of a wire-level `args` sequence
(message type `service_coordinator_pb2` argument entry). -/
structure KV where
  key : String
  value : String
deriving DecidableEq, Repr

/-- The dynamic Python value passed as the `args` parameter of the inform
calls: either an actual `dict` with string keys and values (its entries listed
in insertion order) or any value that is not a `dict` (`isinstance(args, dict)`
is false), identified by its `repr` text. -/
inductive PyVal where
  | dict (entries : List (String × String))
  | nonDict (description : String)
deriving DecidableEq, Repr

/-- Wire message `InformPreviousServiceInfoRequest`. -/
structure InformPreviousServiceInfoRequest where
  taskId : String
  preServiceName : String
  preServiceIp : String
  preServicePort : String
  args : List KV
deriving DecidableEq, Repr

/-- Wire message `InformCurrentServiceInfoRequest`. -/
structure InformCurrentServiceInfoRequest where
  taskId : String
  args : List KV
deriving DecidableEq, Repr

/-- Wire message `StartRequest`. -/
structure StartRequest where
  taskId : String
deriving DecidableEq, Repr

/-- Wire message `StopRequest`. -/
structure StopRequest where
  taskId : String
deriving DecidableEq, Repr

/-- Wire status carried in every response: `response.code` (200 = success)
and `response.message`. -/
structure ResponseStatus where
  code : Int
  message : String
deriving DecidableEq, Repr

/-- Response shape of `informPreviousServiceInfo`, `start` and `stop`:
only the status. -/
structure GenericResponse where
  response : ResponseStatus
deriving DecidableEq, Repr

/-- Response shape of `informCurrentServiceInfo`: status plus an `args`
sequence of key/value pairs injected by the coordinator. -/
structure InformCurrentServiceInfoResponse where
  response : ResponseStatus
  args : List KV
deriving DecidableEq, Repr

/-- The client object: the fields `__name`, `__ip`, `__port` stored by
`__init__` (the channel and stub are the substrate, modelled separately). -/
structure ServiceCoordinatorClient where
  name : String
  ip : String
  port : Int
deriving DecidableEq, Repr

/-- Embedding of `__init__` (lines 14-27): stores the stage's own identity. -/
def ServiceCoordinatorClient.init (name ip : String) (port : Int) :
    ServiceCoordinatorClient :=
  { name := name, ip := ip, port := port }

/-- The RPC substrate for one stub method: `behavior n request` is the outcome
of the `n`-th invocation (counted from process start) when passed `request`;
`calls` is the number of invocations made so far. -/
structure Substrate (σ ρ : Type) where
  behavior : Nat → σ → RpcOutcome ρ
  calls : Nat

/-- Everything observable from one call of a client method: the Python result
or escaped exception, the client object afterwards, and the substrate
afterwards. -/
structure MethodOutcome (σ ρ α : Type) where
  result : Except PyError α
  selfAfter : ServiceCoordinatorClient
  substrateAfter : Substrate σ ρ

/-- Embedding of the `args`-encoding loop (lines 50-54 and 96-100):
`if isinstance(args, dict): for key, value in args.items(): ...` — a dict
contributes one `{key, value}` pair per entry in insertion order; any
non-dict value is silently skipped, leaving the sequence empty. -/
def encodeArgs : PyVal → List KV
  | PyVal.dict entries => entries.map (fun p => { key := p.1, value := p.2 })
  | PyVal.nonDict _ => []

/-- Python `d[k] = v` on a dict represented as its entry list in insertion
order: if `k` is already a key, its entry is updated in place; otherwise the
new entry is appended. -/
def dictInsert (d : List (String × String)) (k v : String) :
    List (String × String) :=
  if d.any (fun p => p.1 == k) then
    d.map (fun p => if p.1 = k then (k, v) else p)
  else
    d ++ [(k, v)]

/-- Python `d.get(k)` on a dict represented as its entry list: the value of
the (unique) entry with key `k`, here the first match. -/
def dictLookup (d : List (String × String)) (k : String) : Option String :=
  (d.find? (fun p => p.1 == k)).map Prod.snd

/-- Embedding of the response-decoding loop (lines 121-123):
`args_output = {}; for arg in response.args: args_output[arg.key] = arg.value`. -/
def decodeResponseArgs (respArgs : List KV) : List (String × String) :=
  respArgs.foldl (fun d kv => dictInsert d kv.key kv.value) []

/-- Request built by `inform_previous_service_info` (lines 44-54). -/
def informPreviousRequest (task_id pre_service_name pre_service_ip
    pre_service_port : String) (args : PyVal) :
    InformPreviousServiceInfoRequest :=
  { taskId := task_id
    preServiceName := pre_service_name
    preServiceIp := pre_service_ip
    preServicePort := pre_service_port
    args := encodeArgs args }

/-- Request built by `inform_current_service_info` (lines 94-100). -/
def informCurrentRequest (task_id : String) (args : PyVal) :
    InformCurrentServiceInfoRequest :=
  { taskId := task_id, args := encodeArgs args }

/-- Message of the `Exception` raised by `inform_previous_service_info` on a
non-200 status (lines 57-72): `'\n'.join([...])` of the listed lines. -/
def informPreviousErrorMessage (self : ServiceCoordinatorClient)
    (task_id pre_service_name pre_service_ip pre_service_port
     server_message : String) : String :=
  String.intercalate "\n"
    [ "Failed to inform previous service info"
    , "Task ID: " ++ task_id
    , "Previous Service Info:"
    , "   name: " ++ pre_service_name
    , "   ip:   " ++ pre_service_ip
    , "   port: " ++ pre_service_port
    , "Current Service Info:"
    , "   name: " ++ self.name
    , "   ip:   " ++ self.ip
    , "   port: " ++ toString self.port
    , "Error:"
    , server_message ]

/-- Message of the `Exception` raised by `inform_current_service_info` on a
non-200 status (lines 107-118). -/
def informCurrentErrorMessage (self : ServiceCoordinatorClient)
    (task_id server_message : String) : String :=
  String.intercalate "\n"
    [ "Failed to inform current service info"
    , "Task ID: " ++ task_id
    , "Current Service Info:"
    , "   name: " ++ self.name
    , "   ip:   " ++ self.ip
    , "   port: " ++ toString self.port
    , "Error:"
    , server_message ]

/-- Message of the `Exception` raised by `start` on a non-200 status
(lines 141-152). -/
def startErrorMessage (self : ServiceCoordinatorClient)
    (task_id server_message : String) : String :=
  String.intercalate "\n"
    [ "Failed to start the service"
    , "Task ID: " ++ task_id
    , "Current Service Info:"
    , "   name: " ++ self.name
    , "   ip:   " ++ self.ip
    , "   port: " ++ toString self.port
    , "Error:"
    , server_message ]

/-- Message of the `Exception` raised by `stop` on a non-200 status
(lines 168-179). -/
def stopErrorMessage (self : ServiceCoordinatorClient)
    (task_id server_message : String) : String :=
  String.intercalate "\n"
    [ "Failed to stop the service"
    , "Task ID: " ++ task_id
    , "Current Service Info:"
    , "   name: " ++ self.name
    , "   ip:   " ++ self.ip
    , "   port: " ++ toString self.port
    , "Error:"
    , server_message ]

/-- Embedding of `inform_previous_service_info` (lines 29-75).  Builds the
request, invokes the stub once, raises `Exception(...)` on a non-200 status
(uncaught: the surrounding handler only catches `grpc.RpcError`), returns
`None` on 200.  If the stub raises `grpc.RpcError`, line 75 executes
`raise(f'gRPC error in inform_previous_service_info: \n...') from e`, whose
operand is a `str`, so CPython raises a `TypeError` instead, with the
`RpcError` attached only as implicit context. -/
def inform_previous_service_info (self : ServiceCoordinatorClient)
    (task_id pre_service_name pre_service_ip pre_service_port : String)
    (args : PyVal)
    (substrate : Substrate InformPreviousServiceInfoRequest GenericResponse) :
    MethodOutcome InformPreviousServiceInfoRequest GenericResponse Unit :=
  let request := informPreviousRequest task_id pre_service_name
    pre_service_ip pre_service_port args
  let substrateAfter : Substrate InformPreviousServiceInfoRequest
      GenericResponse := { substrate with calls := substrate.calls + 1 }
  match substrate.behavior substrate.calls request with
  | RpcOutcome.rpcError e =>
      { result := Except.error (PyError.typeErrorFromRaiseStr typeErrorText
          (some e))
        selfAfter := self
        substrateAfter := substrateAfter }
  | RpcOutcome.ok response =>
      if response.response.code ≠ 200 then
        { result := Except.error (PyError.exception
            (informPreviousErrorMessage self task_id pre_service_name
              pre_service_ip pre_service_port response.response.message))
          selfAfter := self
          substrateAfter := substrateAfter }
      else
        { result := Except.ok ()
          selfAfter := self
          substrateAfter := substrateAfter }

/-- Embedding of `inform_current_service_info` (lines 77-128).  Same shape as
`inform_previous_service_info`, but on a 200 status it decodes the response's
`args` sequence into a dict and returns it. -/
def inform_current_service_info (self : ServiceCoordinatorClient)
    (task_id : String) (args : PyVal)
    (substrate : Substrate InformCurrentServiceInfoRequest
      InformCurrentServiceInfoResponse) :
    MethodOutcome InformCurrentServiceInfoRequest
      InformCurrentServiceInfoResponse (List (String × String)) :=
  let request := informCurrentRequest task_id args
  let substrateAfter : Substrate InformCurrentServiceInfoRequest
      InformCurrentServiceInfoResponse :=
    { substrate with calls := substrate.calls + 1 }
  match substrate.behavior substrate.calls request with
  | RpcOutcome.rpcError e =>
      { result := Except.error (PyError.typeErrorFromRaiseStr typeErrorText
          (some e))
        selfAfter := self
        substrateAfter := substrateAfter }
  | RpcOutcome.ok response =>
      if response.response.code ≠ 200 then
        { result := Except.error (PyError.exception
            (informCurrentErrorMessage self task_id
              response.response.message))
          selfAfter := self
          substrateAfter := substrateAfter }
      else
        { result := Except.ok (decodeResponseArgs response.args)
          selfAfter := self
          substrateAfter := substrateAfter }

/-- Embedding of `start` (lines 130-155). -/
def start (self : ServiceCoordinatorClient) (task_id : String)
    (substrate : Substrate StartRequest GenericResponse) :
    MethodOutcome StartRequest GenericResponse Unit :=
  let request : StartRequest := { taskId := task_id }
  let substrateAfter : Substrate StartRequest GenericResponse :=
    { substrate with calls := substrate.calls + 1 }
  match substrate.behavior substrate.calls request with
  | RpcOutcome.rpcError e =>
      { result := Except.error (PyError.typeErrorFromRaiseStr typeErrorText
          (some e))
        selfAfter := self
        substrateAfter := substrateAfter }
  | RpcOutcome.ok response =>
      if response.response.code ≠ 200 then
        { result := Except.error (PyError.exception
            (startErrorMessage self task_id response.response.message))
          selfAfter := self
          substrateAfter := substrateAfter }
      else
        { result := Except.ok ()
          selfAfter := self
          substrateAfter := substrateAfter }

/-- Embedding of `stop` (lines 157-182). -/
def stop (self : ServiceCoordinatorClient) (task_id : String)
    (substrate : Substrate StopRequest GenericResponse) :
    MethodOutcome StopRequest GenericResponse Unit :=
  let request : StopRequest := { taskId := task_id }
  let substrateAfter : Substrate StopRequest GenericResponse :=
    { substrate with calls := substrate.calls + 1 }
  match substrate.behavior substrate.calls request with
  | RpcOutcome.rpcError e =>
      { result := Except.error (PyError.typeErrorFromRaiseStr typeErrorText
          (some e))
        selfAfter := self
        substrateAfter := substrateAfter }
  | RpcOutcome.ok response =>
      if response.response.code ≠ 200 then
        { result := Except.error (PyError.exception
            (stopErrorMessage self task_id response.response.message))
          selfAfter := self
          substrateAfter := substrateAfter }
      else
        { result := Except.ok ()
          selfAfter := self
          substrateAfter := substrateAfter }

/-- Python default value of the `args` parameter of both inform calls
(line 29 and line 77): the empty dict literal. -/
def argsDefault : PyVal := PyVal.dict []

/-- Calling `inform_previous_service_info` with the `args` parameter omitted:
the default `args = {}` is used. -/
def inform_previous_service_info_noArgs (self : ServiceCoordinatorClient)
    (task_id pre_service_name pre_service_ip pre_service_port : String)
    (substrate : Substrate InformPreviousServiceInfoRequest GenericResponse) :
    MethodOutcome InformPreviousServiceInfoRequest GenericResponse Unit :=
  inform_previous_service_info self task_id pre_service_name pre_service_ip
    pre_service_port argsDefault substrate

/-- Calling `inform_current_service_info` with the `args` parameter omitted:
the default `args = {}` is used. -/
def inform_current_service_info_noArgs (self : ServiceCoordinatorClient)
    (task_id : String)
    (substrate : Substrate InformCurrentServiceInfoRequest
      InformCurrentServiceInfoResponse) :
    MethodOutcome InformCurrentServiceInfoRequest
      InformCurrentServiceInfoResponse (List (String × String)) :=
  inform_current_service_info self task_id argsDefault substrate

/-- Value of the (unique) binding of key `k` after processing a wire `args`
sequence left to right with overwriting: the value of the last pair whose key
is `k`, if any. -/
def lastValue : List KV → String → Option String
  | [], _ => none
  | kv :: rest, k =>
      match lastValue rest k with
      | some v => some v
      | none => if kv.key = k then some kv.value else none

/-- Occurrence of `t` as a contiguous substring of `s`. -/
def ContainsSubstr (s t : String) : Prop := ∃ a b, s = a ++ t ++ b

lemma containsSubstr_refl (t : String) : ContainsSubstr t t :=
  ⟨"", "", by rw [String.empty_append, String.append_empty]⟩

lemma containsSubstr_append_right (a t : String) : ContainsSubstr (a ++ t) t :=
  ⟨a, "", by rw [String.append_empty]⟩

lemma containsSubstr_append_left (t b : String) : ContainsSubstr (t ++ b) t :=
  ⟨"", b, by rw [String.empty_append]⟩

lemma ContainsSubstr.appendLeft {s t : String} (h : ContainsSubstr s t)
    (c : String) : ContainsSubstr (c ++ s) t := by
  obtain ⟨a, b, rfl⟩ := h
  exact ⟨c ++ a, b, by rw [String.append_assoc, String.append_assoc,
    String.append_assoc]⟩

lemma ContainsSubstr.appendRight {s t : String} (h : ContainsSubstr s t)
    (c : String) : ContainsSubstr (s ++ c) t := by
  obtain ⟨a, b, rfl⟩ := h
  exact ⟨a, b ++ c, by rw [String.append_assoc, String.append_assoc]⟩

lemma intercalate_go_nil (acc s : String) :
    String.intercalate.go acc s [] = acc := rfl

lemma intercalate_go_cons (acc s a : String) (as : List String) :
    String.intercalate.go acc s (a :: as)
      = String.intercalate.go (acc ++ s ++ a) s as := rfl

lemma go_contains_of_acc {t : String} (sep : String) (ps : List String)
    (acc : String) (h : ContainsSubstr acc t) :
    ContainsSubstr (String.intercalate.go acc sep ps) t := by
  induction ps generalizing acc with
  | nil => exact h
  | cons a as ih =>
      rw [intercalate_go_cons]
      exact ih _ ((h.appendRight sep).appendRight a)

lemma go_contains_of_mem {t p : String} (sep : String) (ps : List String)
    (acc : String) (hp : p ∈ ps) (h : ContainsSubstr p t) :
    ContainsSubstr (String.intercalate.go acc sep ps) t := by
  induction ps generalizing acc with
  | nil => cases hp
  | cons a as ih =>
      rw [intercalate_go_cons]
      rcases List.mem_cons.mp hp with rfl | hmem
      · exact go_contains_of_acc sep as _ (h.appendLeft (acc ++ sep))
      · exact ih _ hmem

lemma containsSubstr_intercalate {sep p t : String} {parts : List String}
    (hp : p ∈ parts) (h : ContainsSubstr p t) :
    ContainsSubstr (String.intercalate sep parts) t := by
  cases parts with
  | nil => cases hp
  | cons a as =>
      show ContainsSubstr (String.intercalate.go a sep as) t
      rcases List.mem_cons.mp hp with rfl | hmem
      · exact go_contains_of_acc sep as p h
      · exact go_contains_of_mem sep as a hmem h

lemma any_key_iff (d : List (String × String)) (k : String) :
    d.any (fun p => p.1 == k) = true ↔ k ∈ d.map Prod.fst := by
  simp [List.any_eq_true, List.mem_map]

lemma dictLookup_eq_none {d : List (String × String)} {k : String}
    (h : k ∉ d.map Prod.fst) : dictLookup d k = none := by
  have hf : d.find? (fun p => p.1 == k) = none := by
    rw [List.find?_eq_none]
    intro x hx
    simp only [beq_iff_eq]
    exact fun e => h (List.mem_map.mpr ⟨x, hx, e⟩)
  simp [dictLookup, hf]

lemma dictLookup_nil (k : String) : dictLookup [] k = none := rfl

lemma dictLookup_cons (p : String × String) (d : List (String × String))
    (k : String) :
    dictLookup (p :: d) k = if p.1 = k then some p.2 else dictLookup d k := by
  unfold dictLookup
  by_cases h : p.1 = k
  · rw [List.find?_cons_of_pos _ (by simpa using h), if_pos h]
    rfl
  · rw [List.find?_cons_of_neg _ (by simpa using h), if_neg h]

lemma dictLookup_map_update_self {d : List (String × String)} {k v : String}
    (hmem : k ∈ d.map Prod.fst) :
    dictLookup (d.map (fun p => if p.1 = k then (k, v) else p)) k = some v := by
  induction d with
  | nil => simp at hmem
  | cons p rest ih =>
      rw [List.map_cons, dictLookup_cons]
      by_cases hp : p.1 = k
      · simp [hp]
      · have hmem' : k ∈ rest.map Prod.fst := by
          rcases List.mem_map.mp hmem with ⟨x, hx, he⟩
          rcases List.mem_cons.mp hx with rfl | hxr
          · exact absurd he hp
          · exact List.mem_map.mpr ⟨x, hxr, he⟩
        simpa [hp] using ih hmem'

lemma dictLookup_map_update_other {d : List (String × String)}
    {k v k' : String} (hne : k' ≠ k) :
    dictLookup (d.map (fun p => if p.1 = k then (k, v) else p)) k'
      = dictLookup d k' := by
  induction d with
  | nil => rfl
  | cons p rest ih =>
      rw [List.map_cons, dictLookup_cons, dictLookup_cons]
      by_cases hp : p.1 = k
      · have h1 : ¬(k = k') := fun e => hne e.symm
        have h2 : ¬(p.1 = k') := fun e => hne (hp.symm.trans e).symm
        have h1' : ¬((k, v).1 = k') := h1
        simp only [if_pos hp]
        rw [if_neg h1', if_neg h2]
        exact ih
      · rw [if_neg hp]
        by_cases hk' : p.1 = k'
        · rw [if_pos hk', if_pos hk']
        · rw [if_neg hk', if_neg hk']
          exact ih

lemma dictLookup_append (d₁ d₂ : List (String × String)) (k : String) :
    dictLookup (d₁ ++ d₂) k = (dictLookup d₁ k).or (dictLookup d₂ k) := by
  unfold dictLookup
  rw [List.find?_append]
  cases List.find? (fun p => p.1 == k) d₁ <;> simp

lemma dictLookup_dictInsert (d : List (String × String)) (k v k' : String) :
    dictLookup (dictInsert d k v) k'
      = if k' = k then some v else dictLookup d k' := by
  unfold dictInsert
  by_cases hmem : k ∈ d.map Prod.fst
  · rw [if_pos ((any_key_iff d k).mpr hmem)]
    by_cases hk : k' = k
    · subst hk
      rw [if_pos rfl, dictLookup_map_update_self hmem]
    · rw [if_neg hk, dictLookup_map_update_other hk]
  · rw [if_neg (fun hc => hmem ((any_key_iff d k).mp hc))]
    rw [dictLookup_append]
    have hsing : dictLookup [(k, v)] k' = if k = k' then some v else none := by
      rw [dictLookup_cons, dictLookup_nil]
    by_cases hk : k' = k
    · subst hk
      rw [dictLookup_eq_none hmem, hsing, if_pos rfl]
      rfl
    · rw [if_neg hk, hsing, if_neg (fun e => hk e.symm)]
      exact Option.or_none

lemma dictLookup_foldl (l : List KV) (d : List (String × String)) (k : String) :
    dictLookup (l.foldl (fun d kv => dictInsert d kv.key kv.value) d) k
      = (lastValue l k).or (dictLookup d k) := by
  induction l generalizing d with
  | nil => simp [lastValue]
  | cons kv rest ih =>
      rw [List.foldl_cons, ih, dictLookup_dictInsert]
      show _ = (match lastValue rest k with
        | some v => some v
        | none => if kv.key = k then some kv.value else none).or _
      cases hl : lastValue rest k with
      | some v => simp
      | none =>
          by_cases hk : k = kv.key
          · subst hk
            simp
          · have hk2 : ¬(kv.key = k) := fun e => hk e.symm
            simp [hk, hk2]

lemma foldl_dictInsert_of_nodup (l : List KV) :
    ∀ (d : List (String × String)), (l.map KV.key).Nodup →
    (∀ kv ∈ l, kv.key ∉ d.map Prod.fst) →
    l.foldl (fun d kv => dictInsert d kv.key kv.value) d
      = d ++ l.map (fun kv => (kv.key, kv.value)) := by
  induction l with
  | nil =>
      intro d _ _
      simp
  | cons kv rest ih =>
      intro d hnd hdisj
      rw [List.foldl_cons]
      have hkey : kv.key ∉ d.map Prod.fst :=
        hdisj kv (List.mem_cons_self kv rest)
      have hins : dictInsert d kv.key kv.value = d ++ [(kv.key, kv.value)] := by
        unfold dictInsert
        rw [if_neg (fun hc => hkey ((any_key_iff d kv.key).mp hc))]
      have hnd' : (rest.map KV.key).Nodup := (List.nodup_cons.mp
        (by simpa using hnd)).2
      have hdisj' : ∀ kv' ∈ rest, kv'.key ∉
          (d ++ [(kv.key, kv.value)]).map Prod.fst := by
        intro kv' hkv'
        rw [List.map_append, List.mem_append]
        rintro (hcase | hcase)
        · exact hdisj kv' (List.mem_cons_of_mem kv hkv') hcase
        · have hne : kv.key ∉ rest.map KV.key := (List.nodup_cons.mp
            (by simpa using hnd)).1
          simp at hcase
          exact hne (hcase ▸ List.mem_map.mpr ⟨kv', hkv', rfl⟩)
      rw [hins, ih (d ++ [(kv.key, kv.value)]) hnd' hdisj']
      simp

lemma informPreviousErrorMessage_embeds (self : ServiceCoordinatorClient)
    (tid psn psi psp msg : String) :
    ContainsSubstr (informPreviousErrorMessage self tid psn psi psp msg) tid
    ∧ ContainsSubstr (informPreviousErrorMessage self tid psn psi psp msg)
        self.name
    ∧ ContainsSubstr (informPreviousErrorMessage self tid psn psi psp msg)
        self.ip
    ∧ ContainsSubstr (informPreviousErrorMessage self tid psn psi psp msg)
        (toString self.port)
    ∧ ContainsSubstr (informPreviousErrorMessage self tid psn psi psp msg) psn
    ∧ ContainsSubstr (informPreviousErrorMessage self tid psn psi psp msg) psi
    ∧ ContainsSubstr (informPreviousErrorMessage self tid psn psi psp msg) psp
    ∧ ContainsSubstr (informPreviousErrorMessage self tid psn psi psp msg)
        msg := by
  unfold informPreviousErrorMessage
  refine ⟨?_, ?_, ?_, ?_, ?_, ?_, ?_, ?_⟩
  · exact containsSubstr_intercalate (by simp)
      (containsSubstr_append_right "Task ID: " tid)
  · exact containsSubstr_intercalate (by simp)
      (containsSubstr_append_right "   name: " self.name)
  · exact containsSubstr_intercalate (by simp)
      (containsSubstr_append_right "   ip:   " self.ip)
  · exact containsSubstr_intercalate (by simp)
      (containsSubstr_append_right "   port: " (toString self.port))
  · exact containsSubstr_intercalate (by simp)
      (containsSubstr_append_right "   name: " psn)
  · exact containsSubstr_intercalate (by simp)
      (containsSubstr_append_right "   ip:   " psi)
  · exact containsSubstr_intercalate (by simp)
      (containsSubstr_append_right "   port: " psp)
  · exact containsSubstr_intercalate (by simp) (containsSubstr_refl msg)

lemma currentStyleMessage_embeds (header : String)
    (self : ServiceCoordinatorClient) (tid msg : String) :
    ContainsSubstr (String.intercalate "\n"
        [ header
        , "Task ID: " ++ tid
        , "Current Service Info:"
        , "   name: " ++ self.name
        , "   ip:   " ++ self.ip
        , "   port: " ++ toString self.port
        , "Error:"
        , msg ]) tid
    ∧ ContainsSubstr (String.intercalate "\n"
        [ header
        , "Task ID: " ++ tid
        , "Current Service Info:"
        , "   name: " ++ self.name
        , "   ip:   " ++ self.ip
        , "   port: " ++ toString self.port
        , "Error:"
        , msg ]) self.name
    ∧ ContainsSubstr (String.intercalate "\n"
        [ header
        , "Task ID: " ++ tid
        , "Current Service Info:"
        , "   name: " ++ self.name
        , "   ip:   " ++ self.ip
        , "   port: " ++ toString self.port
        , "Error:"
        , msg ]) self.ip
    ∧ ContainsSubstr (String.intercalate "\n"
        [ header
        , "Task ID: " ++ tid
        , "Current Service Info:"
        , "   name: " ++ self.name
        , "   ip:   " ++ self.ip
        , "   port: " ++ toString self.port
        , "Error:"
        , msg ]) (toString self.port)
    ∧ ContainsSubstr (String.intercalate "\n"
        [ header
        , "Task ID: " ++ tid
        , "Current Service Info:"
        , "   name: " ++ self.name
        , "   ip:   " ++ self.ip
        , "   port: " ++ toString self.port
        , "Error:"
        , msg ]) msg := by
  refine ⟨?_, ?_, ?_, ?_, ?_⟩
  · exact containsSubstr_intercalate (by simp)
      (containsSubstr_append_right "Task ID: " tid)
  · exact containsSubstr_intercalate (by simp)
      (containsSubstr_append_right "   name: " self.name)
  · exact containsSubstr_intercalate (by simp)
      (containsSubstr_append_right "   ip:   " self.ip)
  · exact containsSubstr_intercalate (by simp)
      (containsSubstr_append_right "   port: " (toString self.port))
  · exact containsSubstr_intercalate (by simp) (containsSubstr_refl msg)

lemma informCurrentErrorMessage_embeds (self : ServiceCoordinatorClient)
    (tid msg : String) :
    ContainsSubstr (informCurrentErrorMessage self tid msg) tid
    ∧ ContainsSubstr (informCurrentErrorMessage self tid msg) self.name
    ∧ ContainsSubstr (informCurrentErrorMessage self tid msg) self.ip
    ∧ ContainsSubstr (informCurrentErrorMessage self tid msg)
        (toString self.port)
    ∧ ContainsSubstr (informCurrentErrorMessage self tid msg) msg :=
  currentStyleMessage_embeds "Failed to inform current service info" self
    tid msg

lemma startErrorMessage_embeds (self : ServiceCoordinatorClient)
    (tid msg : String) :
    ContainsSubstr (startErrorMessage self tid msg) tid
    ∧ ContainsSubstr (startErrorMessage self tid msg) self.name
    ∧ ContainsSubstr (startErrorMessage self tid msg) self.ip
    ∧ ContainsSubstr (startErrorMessage self tid msg) (toString self.port)
    ∧ ContainsSubstr (startErrorMessage self tid msg) msg :=
  currentStyleMessage_embeds "Failed to start the service" self tid msg

lemma stopErrorMessage_embeds (self : ServiceCoordinatorClient)
    (tid msg : String) :
    ContainsSubstr (stopErrorMessage self tid msg) tid
    ∧ ContainsSubstr (stopErrorMessage self tid msg) self.name
    ∧ ContainsSubstr (stopErrorMessage self tid msg) self.ip
    ∧ ContainsSubstr (stopErrorMessage self tid msg) (toString self.port)
    ∧ ContainsSubstr (stopErrorMessage self tid msg) msg :=
  currentStyleMessage_embeds "Failed to stop the service" self tid msg

/-- Substrate whose every invocation yields the same outcome, with no
invocations made yet; used to instantiate the theorems below at concrete
inputs. -/
def constSubstrate {σ ρ : Type} (o : RpcOutcome ρ) : Substrate σ ρ :=
  { behavior := fun _ _ => o, calls := 0 }

/-- Concrete client fixture. -/
def clientW : ServiceCoordinatorClient :=
  ServiceCoordinatorClient.init "detector" "127.0.0.1" 50051

/-- Concrete success response fixture for the status-only operations. -/
def resp200 : GenericResponse := { response := { code := 200, message := "" } }

/-- Concrete failure response fixture for the status-only operations. -/
def resp500 : GenericResponse :=
  { response := { code := 500, message := "failure reason" } }

/-- Concrete failing response fixture for `informCurrentServiceInfo`. -/
def respC500 : InformCurrentServiceInfoResponse :=
  { response := { code := 500, message := "failure reason" }, args := [] }

/-- Concrete success response fixture for `informCurrentServiceInfo`,
carrying coordinator-injected args. -/
def respC200 : InformCurrentServiceInfoResponse :=
  { response := { code := 200, message := "" }
    args := [{ key := "mode", value := "fast" }] }

/-- Concrete success response fixture for `informCurrentServiceInfo` whose
args sequence repeats a key. -/
def respC200dup : InformCurrentServiceInfoResponse :=
  { response := { code := 200, message := "" }
    args := [{ key := "k", value := "1" }, { key := "k", value := "2" }] }

/-- Concrete transport failure fixture. -/
def grpcUnavailable : GrpcError :=
  { details := "failed to connect to all addresses" }

/-- C1: each of the four client operations raises exactly when the RPC
response carries a status code different from 200.  The raised error is a
protocol-level `Exception` whose message embeds the task id, the stage's own
identity (name, ip, port), for `inform_previous_service_info` also the
predecessor's identity (name, ip, port), and the server's message.  On a 200
status no exception is raised. -/
theorem C1_raise_iff_non200
    (self : ServiceCoordinatorClient) (task_id psn psi psp : String)
    (args : PyVal)
    (sP : Substrate InformPreviousServiceInfoRequest GenericResponse)
    (sC : Substrate InformCurrentServiceInfoRequest
      InformCurrentServiceInfoResponse)
    (sS : Substrate StartRequest GenericResponse)
    (sT : Substrate StopRequest GenericResponse)
    (rP rS rT : GenericResponse) (rC : InformCurrentServiceInfoResponse)
    (hP : sP.behavior sP.calls (informPreviousRequest task_id psn psi psp args)
      = RpcOutcome.ok rP)
    (hC : sC.behavior sC.calls (informCurrentRequest task_id args)
      = RpcOutcome.ok rC)
    (hS : sS.behavior sS.calls { taskId := task_id } = RpcOutcome.ok rS)
    (hT : sT.behavior sT.calls { taskId := task_id } = RpcOutcome.ok rT) :
    ((rP.response.code ≠ 200 →
      ∃ m, (inform_previous_service_info self task_id psn psi psp args
            sP).result = Except.error (PyError.exception m)
        ∧ ContainsSubstr m task_id
        ∧ ContainsSubstr m self.name ∧ ContainsSubstr m self.ip
        ∧ ContainsSubstr m (toString self.port)
        ∧ ContainsSubstr m psn ∧ ContainsSubstr m psi ∧ ContainsSubstr m psp
        ∧ ContainsSubstr m rP.response.message)
    ∧ (rP.response.code = 200 →
      (inform_previous_service_info self task_id psn psi psp args sP).result
        = Except.ok ()))
    ∧ ((rC.response.code ≠ 200 →
      ∃ m, (inform_current_service_info self task_id args sC).result
          = Except.error (PyError.exception m)
        ∧ ContainsSubstr m task_id
        ∧ ContainsSubstr m self.name ∧ ContainsSubstr m self.ip
        ∧ ContainsSubstr m (toString self.port)
        ∧ ContainsSubstr m rC.response.message)
    ∧ (rC.response.code = 200 →
      ∃ out, (inform_current_service_info self task_id args sC).result
        = Except.ok out))
    ∧ ((rS.response.code ≠ 200 →
      ∃ m, (start self task_id sS).result
          = Except.error (PyError.exception m)
        ∧ ContainsSubstr m task_id
        ∧ ContainsSubstr m self.name ∧ ContainsSubstr m self.ip
        ∧ ContainsSubstr m (toString self.port)
        ∧ ContainsSubstr m rS.response.message)
    ∧ (rS.response.code = 200 →
      (start self task_id sS).result = Except.ok ()))
    ∧ ((rT.response.code ≠ 200 →
      ∃ m, (stop self task_id sT).result
          = Except.error (PyError.exception m)
        ∧ ContainsSubstr m task_id
        ∧ ContainsSubstr m self.name ∧ ContainsSubstr m self.ip
        ∧ ContainsSubstr m (toString self.port)
        ∧ ContainsSubstr m rT.response.message)
    ∧ (rT.response.code = 200 →
      (stop self task_id sT).result = Except.ok ())) := by
  refine ⟨⟨?_, ?_⟩, ⟨?_, ?_⟩, ⟨?_, ?_⟩, ⟨?_, ?_⟩⟩
  · intro hc
    refine ⟨informPreviousErrorMessage self task_id psn psi psp
      rP.response.message, ?_, ?_⟩
    · simp [inform_previous_service_info, hP, hc]
    · exact informPreviousErrorMessage_embeds self task_id psn psi psp
        rP.response.message
  · intro hc
    simp [inform_previous_service_info, hP, hc]
  · intro hc
    refine ⟨informCurrentErrorMessage self task_id rC.response.message,
      ?_, ?_⟩
    · simp [inform_current_service_info, hC, hc]
    · exact informCurrentErrorMessage_embeds self task_id rC.response.message
  · intro hc
    exact ⟨decodeResponseArgs rC.args,
      by simp [inform_current_service_info, hC, hc]⟩
  · intro hc
    refine ⟨startErrorMessage self task_id rS.response.message, ?_, ?_⟩
    · simp [start, hS, hc]
    · exact startErrorMessage_embeds self task_id rS.response.message
  · intro hc
    simp [start, hS, hc]
  · intro hc
    refine ⟨stopErrorMessage self task_id rT.response.message, ?_, ?_⟩
    · simp [stop, hT, hc]
    · exact stopErrorMessage_embeds self task_id rT.response.message
  · intro hc
    simp [stop, hT, hc]

/-- Witness for C1 at a concrete input: a 500-status reply to
`inform_previous_service_info` yields an `Exception` whose message embeds the
task id, both identities and the server message, while a 200-status reply to
`start` raises nothing. -/
theorem C1_raise_iff_non200_witness :
    (∃ m, (inform_previous_service_info clientW "t1" "A" "10.0.0.1" "9000"
          (PyVal.dict [("k", "v")])
          (constSubstrate (RpcOutcome.ok resp500))).result
        = Except.error (PyError.exception m)
      ∧ ContainsSubstr m "t1"
      ∧ ContainsSubstr m "detector" ∧ ContainsSubstr m "127.0.0.1"
      ∧ ContainsSubstr m "50051"
      ∧ ContainsSubstr m "A" ∧ ContainsSubstr m "10.0.0.1"
      ∧ ContainsSubstr m "9000"
      ∧ ContainsSubstr m "failure reason")
    ∧ (start clientW "t1" (constSubstrate (RpcOutcome.ok resp200))).result
      = Except.ok () := by
  have h := C1_raise_iff_non200 clientW "t1" "A" "10.0.0.1" "9000"
    (PyVal.dict [("k", "v")]) (constSubstrate (RpcOutcome.ok resp500))
    (constSubstrate (RpcOutcome.ok respC500))
    (constSubstrate (RpcOutcome.ok resp200))
    (constSubstrate (RpcOutcome.ok resp200))
    resp500 resp200 resp200 respC500 rfl rfl rfl rfl
  exact ⟨h.1.1 (by decide), h.2.2.1.2 (by decide)⟩

/-- C2 (evidence of the code bug): at the concrete failing input — the RPC
substrate raising `grpc.RpcError` — every one of the four operations lets a
CPython `TypeError` reading "exceptions must derive from BaseException"
escape, because the handler executes `raise` on a `str` operand
(lines 75, 128, 155, 182); no distinct transport-error class carrying the
underlying cause is raised, the `RpcError` surviving only as implicit
exception context. -/
theorem C2_transport_failure_raises_typeError :
    ((inform_previous_service_info clientW "t1" "A" "10.0.0.1" "9000"
        (PyVal.dict [])
        (constSubstrate (RpcOutcome.rpcError grpcUnavailable))).result
      = Except.error (PyError.typeErrorFromRaiseStr typeErrorText
          (some grpcUnavailable)))
    ∧ ((inform_current_service_info clientW "t1" (PyVal.dict [])
        (constSubstrate (RpcOutcome.rpcError grpcUnavailable))).result
      = Except.error (PyError.typeErrorFromRaiseStr typeErrorText
          (some grpcUnavailable)))
    ∧ ((start clientW "t1"
        (constSubstrate (RpcOutcome.rpcError grpcUnavailable))).result
      = Except.error (PyError.typeErrorFromRaiseStr typeErrorText
          (some grpcUnavailable)))
    ∧ ((stop clientW "t1"
        (constSubstrate (RpcOutcome.rpcError grpcUnavailable))).result
      = Except.error (PyError.typeErrorFromRaiseStr typeErrorText
          (some grpcUnavailable))) :=
  ⟨rfl, rfl, rfl, rfl⟩

/-- C3: on a 200 status, `inform_current_service_info` returns the argument
map decoded from the response's `args` sequence, while
`inform_previous_service_info`, `start` and `stop` return plain success with
no payload. -/
theorem C3_success_payloads
    (self : ServiceCoordinatorClient) (task_id psn psi psp : String)
    (args : PyVal)
    (sP : Substrate InformPreviousServiceInfoRequest GenericResponse)
    (sC : Substrate InformCurrentServiceInfoRequest
      InformCurrentServiceInfoResponse)
    (sS : Substrate StartRequest GenericResponse)
    (sT : Substrate StopRequest GenericResponse)
    (rP rS rT : GenericResponse) (rC : InformCurrentServiceInfoResponse)
    (hP : sP.behavior sP.calls (informPreviousRequest task_id psn psi psp args)
      = RpcOutcome.ok rP)
    (hC : sC.behavior sC.calls (informCurrentRequest task_id args)
      = RpcOutcome.ok rC)
    (hS : sS.behavior sS.calls { taskId := task_id } = RpcOutcome.ok rS)
    (hT : sT.behavior sT.calls { taskId := task_id } = RpcOutcome.ok rT)
    (hP200 : rP.response.code = 200) (hC200 : rC.response.code = 200)
    (hS200 : rS.response.code = 200) (hT200 : rT.response.code = 200) :
    (inform_previous_service_info self task_id psn psi psp args sP).result
      = Except.ok ()
    ∧ (inform_current_service_info self task_id args sC).result
      = Except.ok (decodeResponseArgs rC.args)
    ∧ (start self task_id sS).result = Except.ok ()
    ∧ (stop self task_id sT).result = Except.ok () := by
  refine ⟨?_, ?_, ?_, ?_⟩
  · simp [inform_previous_service_info, hP, hP200]
  · simp [inform_current_service_info, hC, hC200]
  · simp [start, hS, hS200]
  · simp [stop, hT, hT200]

/-- Witness for C3 at a concrete input: the coordinator's injected
`args = [{mode, fast}]` comes back as the decoded map, the other operations
return bare success. -/
theorem C3_success_payloads_witness :
    (inform_previous_service_info clientW "t1" "A" "10.0.0.1" "9000"
        (PyVal.dict []) (constSubstrate (RpcOutcome.ok resp200))).result
      = Except.ok ()
    ∧ (inform_current_service_info clientW "t1" (PyVal.dict [])
        (constSubstrate (RpcOutcome.ok respC200))).result
      = Except.ok [("mode", "fast")]
    ∧ (start clientW "t1" (constSubstrate (RpcOutcome.ok resp200))).result
      = Except.ok ()
    ∧ (stop clientW "t1" (constSubstrate (RpcOutcome.ok resp200))).result
      = Except.ok () :=
  C3_success_payloads clientW "t1" "A" "10.0.0.1" "9000" (PyVal.dict [])
    (constSubstrate (RpcOutcome.ok resp200))
    (constSubstrate (RpcOutcome.ok respC200))
    (constSubstrate (RpcOutcome.ok resp200))
    (constSubstrate (RpcOutcome.ok resp200))
    resp200 resp200 resp200 respC200 rfl rfl rfl rfl rfl rfl rfl rfl

/-- C4: the value returned by `inform_current_service_info` depends only on
the coordinator's response: two calls that receive the same outcome from the
substrate but submitted different `args` return the same result. -/
theorem C4_result_independent_of_submitted_args
    (self : ServiceCoordinatorClient) (task_id : String) (args₁ args₂ : PyVal)
    (s₁ s₂ : Substrate InformCurrentServiceInfoRequest
      InformCurrentServiceInfoResponse)
    (outcome : RpcOutcome InformCurrentServiceInfoResponse)
    (h₁ : s₁.behavior s₁.calls (informCurrentRequest task_id args₁) = outcome)
    (h₂ : s₂.behavior s₂.calls (informCurrentRequest task_id args₂) = outcome) :
    (inform_current_service_info self task_id args₁ s₁).result
      = (inform_current_service_info self task_id args₂ s₂).result := by
  simp only [inform_current_service_info, h₁, h₂]
  cases outcome with
  | rpcError e => rfl
  | ok r => by_cases hc : r.response.code = 200 <;> simp [hc]

/-- Witness for C4 at a concrete input: submitting `{"a": "1"}` and
submitting a non-dict value, against the same response, return the same
map. -/
theorem C4_result_independent_of_submitted_args_witness :
    (inform_current_service_info clientW "t1" (PyVal.dict [("a", "1")])
        (constSubstrate (RpcOutcome.ok respC200))).result
      = (inform_current_service_info clientW "t1" (PyVal.nonDict "None")
        (constSubstrate (RpcOutcome.ok respC200))).result :=
  C4_result_independent_of_submitted_args clientW "t1"
    (PyVal.dict [("a", "1")]) (PyVal.nonDict "None")
    (constSubstrate (RpcOutcome.ok respC200))
    (constSubstrate (RpcOutcome.ok respC200))
    (RpcOutcome.ok respC200) rfl rfl

/-- C5: round-trip of the argument-map codec — encoding a mapping (a Python
dict: entries in insertion order, keys distinct) as the wire sequence of
key/value pairs and decoding that sequence back, as
`inform_current_service_info` does for response args, restores the original
mapping. -/
theorem C5_argument_map_roundtrip (m : List (String × String))
    (h : (m.map Prod.fst).Nodup) :
    decodeResponseArgs (encodeArgs (PyVal.dict m)) = m := by
  unfold decodeResponseArgs encodeArgs
  rw [foldl_dictInsert_of_nodup]
  · have hcomp : ((fun kv : KV => (kv.key, kv.value)) ∘
        (fun p : String × String => ({ key := p.1, value := p.2 } : KV)))
        = id := by
      funext p
      rfl
    simp [List.map_map, hcomp]
  · simpa [List.map_map, Function.comp] using h
  · simp

/-- Witness for C5 at a concrete input: a two-entry mapping with distinct
keys survives the round-trip. -/
theorem C5_argument_map_roundtrip_witness :
    ((([("version", "1"), ("mode", "fast")] : List (String × String)).map
        Prod.fst).Nodup)
    ∧ decodeResponseArgs (encodeArgs
        (PyVal.dict [("version", "1"), ("mode", "fast")]))
      = [("version", "1"), ("mode", "fast")] :=
  ⟨by decide,
    C5_argument_map_roundtrip [("version", "1"), ("mode", "fast")] (by decide)⟩

/-- C6: no operation retries — a single call of any of the four operations
makes exactly one invocation of the underlying RPC substrate, whatever the
outcome. -/
theorem C6_exactly_one_rpc_invocation
    (self : ServiceCoordinatorClient) (task_id psn psi psp : String)
    (args : PyVal)
    (sP : Substrate InformPreviousServiceInfoRequest GenericResponse)
    (sC : Substrate InformCurrentServiceInfoRequest
      InformCurrentServiceInfoResponse)
    (sS : Substrate StartRequest GenericResponse)
    (sT : Substrate StopRequest GenericResponse) :
    (inform_previous_service_info self task_id psn psi psp args
        sP).substrateAfter.calls = sP.calls + 1
    ∧ (inform_current_service_info self task_id args
        sC).substrateAfter.calls = sC.calls + 1
    ∧ (start self task_id sS).substrateAfter.calls = sS.calls + 1
    ∧ (stop self task_id sT).substrateAfter.calls = sT.calls + 1 := by
  refine ⟨?_, ?_, ?_, ?_⟩
  · simp only [inform_previous_service_info]
    split
    · rfl
    · split <;> rfl
  · simp only [inform_current_service_info]
    split
    · rfl
    · split <;> rfl
  · simp only [start]
    split
    · rfl
    · split <;> rfl
  · simp only [stop]
    split
    · rfl
    · split <;> rfl

/-- C7: the stage's own identity is fixed at construction — `__init__` stores
`name`, `ip`, `port`, and none of the four operations, on any input and any
outcome, changes them. -/
theorem C7_identity_fixed_at_construction (name ip : String) (port : Int)
    (task_id psn psi psp : String) (args : PyVal)
    (sP : Substrate InformPreviousServiceInfoRequest GenericResponse)
    (sC : Substrate InformCurrentServiceInfoRequest
      InformCurrentServiceInfoResponse)
    (sS : Substrate StartRequest GenericResponse)
    (sT : Substrate StopRequest GenericResponse) :
    (ServiceCoordinatorClient.init name ip port).name = name
    ∧ (ServiceCoordinatorClient.init name ip port).ip = ip
    ∧ (ServiceCoordinatorClient.init name ip port).port = port
    ∧ (inform_previous_service_info (ServiceCoordinatorClient.init name ip
        port) task_id psn psi psp args sP).selfAfter
      = ServiceCoordinatorClient.init name ip port
    ∧ (inform_current_service_info (ServiceCoordinatorClient.init name ip
        port) task_id args sC).selfAfter
      = ServiceCoordinatorClient.init name ip port
    ∧ (start (ServiceCoordinatorClient.init name ip port) task_id
        sS).selfAfter = ServiceCoordinatorClient.init name ip port
    ∧ (stop (ServiceCoordinatorClient.init name ip port) task_id
        sT).selfAfter = ServiceCoordinatorClient.init name ip port := by
  refine ⟨rfl, rfl, rfl, ?_, ?_, ?_, ?_⟩
  · simp only [inform_previous_service_info]
    split
    · rfl
    · split <;> rfl
  · simp only [inform_current_service_info]
    split
    · rfl
    · split <;> rfl
  · simp only [start]
    split
    · rfl
    · split <;> rfl
  · simp only [stop]
    split
    · rfl
    · split <;> rfl

/-- C8: passing a non-dict value as `args` to either inform call raises
nothing at request-building time; the `isinstance(args, dict)` guard silently
skips it, so the request carries an empty `args` sequence and the whole call
behaves exactly as if the empty dict had been passed. -/
theorem C8_non_dict_args_silently_dropped
    (self : ServiceCoordinatorClient) (task_id psn psi psp d : String)
    (sP : Substrate InformPreviousServiceInfoRequest GenericResponse)
    (sC : Substrate InformCurrentServiceInfoRequest
      InformCurrentServiceInfoResponse) :
    (informPreviousRequest task_id psn psi psp (PyVal.nonDict d)).args = []
    ∧ (informCurrentRequest task_id (PyVal.nonDict d)).args = []
    ∧ inform_previous_service_info self task_id psn psi psp
        (PyVal.nonDict d) sP
      = inform_previous_service_info self task_id psn psi psp
        (PyVal.dict []) sP
    ∧ inform_current_service_info self task_id (PyVal.nonDict d) sC
      = inform_current_service_info self task_id (PyVal.dict []) sC :=
  ⟨rfl, rfl, rfl, rfl⟩

/-- C9: omitting the `args` parameter uses the default `args = {}` (line 29
and line 77), indistinguishable on the wire from passing the empty dict: the
built request carries an empty `args` sequence and the calls coincide. -/
theorem C9_omitted_args_equals_empty_dict
    (self : ServiceCoordinatorClient) (task_id psn psi psp : String)
    (sP : Substrate InformPreviousServiceInfoRequest GenericResponse)
    (sC : Substrate InformCurrentServiceInfoRequest
      InformCurrentServiceInfoResponse) :
    informPreviousRequest task_id psn psi psp argsDefault
      = informPreviousRequest task_id psn psi psp (PyVal.dict [])
    ∧ (informPreviousRequest task_id psn psi psp argsDefault).args = []
    ∧ informCurrentRequest task_id argsDefault
      = informCurrentRequest task_id (PyVal.dict [])
    ∧ (informCurrentRequest task_id argsDefault).args = []
    ∧ inform_previous_service_info_noArgs self task_id psn psi psp sP
      = inform_previous_service_info self task_id psn psi psp
        (PyVal.dict []) sP
    ∧ inform_current_service_info_noArgs self task_id sC
      = inform_current_service_info self task_id (PyVal.dict []) sC :=
  ⟨rfl, rfl, rfl, rfl, rfl, rfl⟩

/-- C10: when a successful response to `inform_current_service_info` repeats
a key in its `args` sequence, the returned map binds the key to the value of
the last pair, later occurrences overwriting earlier ones. -/
theorem C10_duplicate_keys_last_wins
    (self : ServiceCoordinatorClient) (task_id : String) (args : PyVal)
    (s : Substrate InformCurrentServiceInfoRequest
      InformCurrentServiceInfoResponse)
    (resp : InformCurrentServiceInfoResponse)
    (h : s.behavior s.calls (informCurrentRequest task_id args)
      = RpcOutcome.ok resp)
    (h200 : resp.response.code = 200) :
    (inform_current_service_info self task_id args s).result
      = Except.ok (decodeResponseArgs resp.args)
    ∧ ∀ k, dictLookup (decodeResponseArgs resp.args) k
      = lastValue resp.args k := by
  constructor
  · simp [inform_current_service_info, h, h200]
  · intro k
    unfold decodeResponseArgs
    rw [dictLookup_foldl, dictLookup_nil]
    exact Option.or_none

/-- Witness for C10 at a concrete input: the response args repeat key `k`
with values `1` then `2`; the returned map is `{k: 2}`. -/
theorem C10_duplicate_keys_last_wins_witness :
    (inform_current_service_info clientW "t1" (PyVal.dict [])
        (constSubstrate (RpcOutcome.ok respC200dup))).result
      = Except.ok [("k", "2")]
    ∧ dictLookup (decodeResponseArgs respC200dup.args) "k" = some "2" := by
  have h := C10_duplicate_keys_last_wins clientW "t1" (PyVal.dict [])
    (constSubstrate (RpcOutcome.ok respC200dup)) respC200dup rfl rfl
  exact ⟨by simpa [respC200dup, decodeResponseArgs, dictInsert] using h.1,
    by simpa [respC200dup, lastValue] using h.2 "k"⟩

end SCClient
